import Mathlib

/-!
Shallow embedding of the DigiKey parts-catalog client subsystem of the
`grokicad` backend (`src/backend/src/services/digikey.rs` and
`src/backend/src/controllers/digikey.rs`).

Network I/O is abstracted by outcome parameters: every point where the Rust
code performs an HTTP round trip takes an explicit "outcome" value describing
how that round trip went (send error, non-success HTTP status, undecodable
body, or a decoded success payload).  `Instant` values are modelled as natural
numbers counting seconds (the code only ever adds whole seconds to instants
and compares them).  Rust `Option<T>` becomes `Option T`, `String` becomes
`String`, `i64` becomes `Int`, `f64` becomes `Float` (the field is only
carried, never computed with), and `u64` durations become `Nat`.
-/

/-! ## Wire schema of the provider (services/digikey.rs, lines 41–164) -/

/-- Rust `struct TokenCache` (services/digikey.rs:41–45): the cached bearer
credential; `expires_at : Instant` is modelled in whole seconds. -/
structure TokenCache where
  access_token : String
  expires_at : Nat
deriving Repr, DecidableEq

/-- Rust `struct TokenResponse` (services/digikey.rs:47–53): decoded body of a
successful token-endpoint reply. -/
structure TokenResponse where
  access_token : String
  expires_in : Nat
  token_type : String
deriving Repr, DecidableEq

/-- Rust `struct ManufacturerInfo` (services/digikey.rs:137–141). -/
structure ManufacturerInfo where
  name : Option String
deriving Repr, DecidableEq

/-- Rust `struct ProductStatus` (services/digikey.rs:143–150). -/
structure ProductStatus where
  status : Option String
  id : Option Int
deriving Repr, DecidableEq

/-- Rust `struct CategoryInfo` (services/digikey.rs:152–156). -/
structure CategoryInfo where
  name : Option String
deriving Repr, DecidableEq

/-- Rust `struct ParameterInfo` (services/digikey.rs:158–164). -/
structure ParameterInfo where
  parameter_text : Option String
  value_text : Option String
deriving Repr, DecidableEq

/-- Rust `struct PackageType` (services/digikey.rs:130–135). -/
structure PackageType where
  name : Option String
deriving Repr, DecidableEq

/-- Rust `struct ProductVariation` (services/digikey.rs:121–128). -/
structure ProductVariation where
  digikey_product_number : Option String
  package_type : Option PackageType
deriving Repr, DecidableEq

/-- Rust `struct DescriptionInfo` (services/digikey.rs:113–119). -/
structure DescriptionInfo where
  product_description : Option String
  detailed_description : Option String
deriving Repr, DecidableEq

/-- Rust `struct DigiKeyProduct` (services/digikey.rs:81–111): one raw provider
product record. -/
structure DigiKeyProduct where
  manufacturer_part_number : Option String
  manufacturer : Option ManufacturerInfo
  description : Option DescriptionInfo
  product_url : Option String
  datasheet_url : Option String
  primary_photo : Option String
  quantity_available : Option Int
  unit_price : Option Float
  product_status : Option ProductStatus
  category : Option CategoryInfo
  parameters : Option (List ParameterInfo)
  product_variations : Option (List ProductVariation)

/-- Rust `struct DigiKeySearchResponse` (services/digikey.rs:65–79): the three
result buckets of one provider search reply. -/
structure DigiKeySearchResponse where
  products : Option (List DigiKeyProduct)
  products_count : Option Int
  exact_manufacturer_products : Option (List DigiKeyProduct)
  exact_manufacturer_products_count : Option Int
  exact_digikey_product : Option DigiKeyProduct

/-! ## Internal part representation (`crate::types`)

`DigiKeyPartInfo` and `DigiKeyParameter` live in the crate's `types` module;
their fields are read off the record constructions in
`convert_product` (services/digikey.rs:357–383) and the controller. -/

/-- One `(name, value)` parameter pair of the internal representation. -/
structure DigiKeyParameter where
  name : String
  value : String
deriving Repr, DecidableEq

/-- The internal, caller-facing part record built by `convert_product`. -/
structure DigiKeyPartInfo where
  digikey_part_number : Option String
  manufacturer_part_number : Option String
  manufacturer : Option String
  description : Option String
  detailed_description : Option String
  product_url : Option String
  datasheet_url : Option String
  photo_url : Option String
  quantity_available : Option Int
  unit_price : Option Float
  product_status : Option String
  is_obsolete : Bool
  lifecycle_status : Option String
  category : Option String
  parameters : List DigiKeyParameter

/-! ## Part normalizer: `convert_product` (services/digikey.rs:318–384) -/

/-- ASCII model of Rust `str::to_lowercase` (the obsolescence keywords the
code tests for are all ASCII). -/
def strToLower (s : String) : String :=
  String.mk (s.toList.map Char.toLower)

/-- Tests whether `pat` matches at the head of `l` (helper for substring containment). -/
def startsWithChars : List Char → List Char → Bool
  | [], _ => true
  | _ :: _, [] => false
  | p :: ps, c :: cs => (p == c) && startsWithChars ps cs

/-- Tests whether `pat` occurs contiguously somewhere in `l`. -/
def containsSubChars (pat : List Char) : List Char → Bool
  | [] => pat.isEmpty
  | c :: rest => startsWithChars pat (c :: rest) || containsSubChars pat rest

/-- Model of Rust `str::contains(&str)`: substring containment. -/
def strContainsSub (hay pat : String) : Bool :=
  containsSubChars pat.toList hay.toList

/-- Model of `product.product_status.as_ref().and_then(|s| s.status.clone())`
(services/digikey.rs:333). -/
def statusOf (product : DigiKeyProduct) : Option String :=
  product.product_status.bind (fun s => s.status)

/-- The obsolescence test applied to a present raw status string
(services/digikey.rs:336–342). -/
def hasObsoleteKeyword (s : String) : Bool :=
  let s_lower := strToLower s
  strContainsSub s_lower "obsolete"
    || strContainsSub s_lower "discontinued"
    || strContainsSub s_lower "not for new designs"
    || strContainsSub s_lower "last time buy"

/-- Model of `DigiKeyClient::convert_product` (services/digikey.rs:318–384): total
normalization of one provider product into the internal representation. -/
def convert_product (product : DigiKeyProduct) : DigiKeyPartInfo :=
  -- lines 320–324: DigiKey part number from the first product variation
  let digikey_part_number :=
    ((product.product_variations.bind List.head?).bind
      (fun v => v.digikey_product_number))
  -- line 333
  let status := statusOf product
  -- lines 334–343
  let is_obsolete := (status.map hasObsoleteKeyword).getD false
  -- lines 345–349
  let lifecycle_status :=
    if is_obsolete then some (status.getD "Obsolete") else status
  -- lines 352–355
  let descPair :=
    match product.description with
    | some desc => (desc.product_description, desc.detailed_description)
    | none => (none, none)
  { digikey_part_number := digikey_part_number
    manufacturer_part_number := product.manufacturer_part_number
    manufacturer := product.manufacturer.bind (fun m => m.name)
    description := descPair.1
    detailed_description := descPair.2
    product_url := product.product_url
    datasheet_url := product.datasheet_url
    photo_url := product.primary_photo
    quantity_available := product.quantity_available
    unit_price := product.unit_price
    product_status := status
    is_obsolete := is_obsolete
    lifecycle_status := lifecycle_status
    category := product.category.bind (fun c => c.name)
    -- lines 372–382: keep parameters with a present name; default the value
    parameters :=
      (product.parameters.getD []).filterMap
        (fun p => p.parameter_text.map
          (fun nm => DigiKeyParameter.mk nm (p.value_text.getD ""))) }

/-! ## Result aggregation (services/digikey.rs:277–314)

The pure tail of `search_keyword` after the response is decoded: exact
DigiKey product first, then every exact-manufacturer product, then keyword
products subject to the `parts.len() < 5` entry check, the
`take(10 - parts.len())` bound, and the duplicate-MPN filter. -/

/-- The output list before the keyword bucket is consulted: the exact
DigiKey product, if present, followed by every exact-manufacturer product
(services/digikey.rs:279–294). -/
def baseParts (r : DigiKeySearchResponse) : List DigiKeyPartInfo :=
  (match r.exact_digikey_product with
   | some exact_dk => [convert_product exact_dk]
   | none => []) ++
  (r.exact_manufacturer_products.getD []).map convert_product

/-- One iteration of the keyword-bucket loop (services/digikey.rs:300–309):
the product is appended unless some already-included record has an equal
`Option`-valued manufacturer part number. -/
def dedupStep (parts : List DigiKeyPartInfo) (product : DigiKeyProduct) :
    List DigiKeyPartInfo :=
  let already_included := parts.any
    (fun p => p.manufacturer_part_number == product.manufacturer_part_number)
  if already_included then parts else parts ++ [convert_product product]

/-- The aggregation step of `DigiKeyClient::search_keyword`
(services/digikey.rs:277–314), as a pure function of the decoded response. -/
def aggregate (r : DigiKeySearchResponse) : List DigiKeyPartInfo :=
  let parts := baseParts r
  -- line 297: the `< 5` check happens once, before the keyword loop
  if parts.length < 5 then
    match r.products with
    | some products =>
        -- lines 299–309: `take(10 - parts.len())`, then the dedup filter
        (products.take (10 - parts.length)).foldl dedupStep parts
    | none => parts
  else parts

/-! ## Token manager: `get_access_token` (services/digikey.rs:179–233) -/

/-- Outcome of the one token-endpoint round trip `get_access_token` may
perform: transport failure (line 206), non-success HTTP status
(lines 208–213), undecodable body (lines 215–218) or a decoded
`TokenResponse`. -/
inductive TokenRequestOutcome where
  | sendError
  | httpError (status : Nat) (body : String)
  | decodeError
  | success (tr : TokenResponse)
deriving Repr, DecidableEq

/-- Returns `true` on the three non-success round-trip outcomes. -/
def TokenRequestOutcome.isFailure : TokenRequestOutcome → Bool
  | .success _ => false
  | _ => true

/-- Observable result of one `get_access_token` call: the returned
`Result<String>`, the token-cache slot after the call, and how many
token-endpoint requests were issued during the call. -/
structure TokenCallResult where
  result : Except String String
  cache : Option TokenCache
  requests : Nat

/-- The refresh path of `get_access_token` (services/digikey.rs:192–232),
entered when the cache is absent or within 60 s of expiry.  `nowRefresh` is
the `Instant::now()` read on line 220; `cache` is the slot's prior content,
retained on every failure and replaced wholesale on success. -/
def refreshToken (cache : Option TokenCache) (nowRefresh : Nat)
    (fetch : TokenRequestOutcome) : TokenCallResult :=
  match fetch with
  | .sendError =>
      -- line 206: `.context("Failed to send token request to DigiKey")?`
      ⟨.error "Failed to send token request to DigiKey", cache, 1⟩
  | .httpError status body =>
      -- lines 208–213
      ⟨.error ("DigiKey authentication failed: " ++ toString status
          ++ " - " ++ body), cache, 1⟩
  | .decodeError =>
      -- lines 215–218
      ⟨.error "Failed to parse DigiKey token response", cache, 1⟩
  | .success tr =>
      -- lines 220–232: replace the slot wholesale, return the fresh token
      ⟨.ok tr.access_token,
        some ⟨tr.access_token, nowRefresh + tr.expires_in⟩, 1⟩

/-- Model of `DigiKeyClient::get_access_token` (services/digikey.rs:179–233).  `now`
is the `Instant::now()` read in the cache check on line 185, `nowRefresh`
the one on line 220; `fetch` abstracts the token-endpoint round trip. -/
def get_access_token (cache : Option TokenCache) (now nowRefresh : Nat)
    (fetch : TokenRequestOutcome) : TokenCallResult :=
  match cache with
  | some cached =>
      -- lines 183–189: serve from cache if > 60 s of validity remain
      if cached.expires_at > now + 60 then
        ⟨.ok cached.access_token, cache, 0⟩
      else refreshToken cache nowRefresh fetch
  | none => refreshToken cache nowRefresh fetch

/-! ## Search pipeline: `search_keyword` (services/digikey.rs:238–315) -/

/-- Outcome of the one search-endpoint round trip: transport failure
(line 263), non-success status (lines 265–270), undecodable body
(lines 272–275) or a decoded response. -/
inductive SearchRequestOutcome where
  | sendError
  | httpError (status : Nat) (body : String)
  | decodeError
  | success (resp : DigiKeySearchResponse)

/-- Model of `DigiKeyClient::search_keyword` (services/digikey.rs:238–315) as a
function of the two abstracted round trips.  The query string only
parameterizes the outbound request body, which `searchFetch` abstracts, so
it does not appear.  `configured` is `DigiKeyClient::is_configured()`. -/
def search_keyword (configured : Bool) (cache : Option TokenCache)
    (now nowRefresh : Nat) (tokenFetch : TokenRequestOutcome)
    (searchFetch : SearchRequestOutcome) :
    Except String (List DigiKeyPartInfo) :=
  if !configured then
    -- lines 239–241
    .error ("DigiKey API not configured. Set DIGIKEY_CLIENT_ID and "
      ++ "DIGIKEY_CLIENT_SECRET environment variables.")
  else
    match (get_access_token cache now nowRefresh tokenFetch).result with
    | .error e => .error e   -- line 243: `?` propagates the auth failure
    | .ok _token =>
        match searchFetch with
        | .sendError =>
            .error "Failed to send search request to DigiKey"
        | .httpError status body =>
            .error ("DigiKey search failed: " ++ toString status
              ++ " - " ++ body)
        | .decodeError =>
            .error "Failed to parse DigiKey search response"
        | .success resp => .ok (aggregate resp)

/-! ## HTTP handler: `search_parts` (controllers/digikey.rs:24–74) -/

/-- Rust `struct ApiError` of `crate::types`, as constructed by
`ApiError::new(code, message)` in the controller. -/
structure ApiError where
  code : String
  message : String
deriving Repr, DecidableEq

/-- Rust `struct DigiKeySearchRequest` of `crate::types`: the `POST /search`
body, with fields read off the controller (`req.query`, `req.mpn`). -/
structure DigiKeySearchRequest where
  query : String
  mpn : Option String

/-- Rust `struct DigiKeySearchResponse` of `crate::types` (the wire response of
the handler), with fields read off its construction in
controllers/digikey.rs:52–58 and 65–71. -/
structure DigiKeySearchResponseWire where
  query : String
  success : Bool
  error : Option String
  parts : List DigiKeyPartInfo
  total_count : Nat

/-- Result of the axum handler: `ok` is an HTTP 200 reply carrying the JSON
body; `err` is a non-200 reply with its status code and `ApiError` body. -/
inductive HandlerResult where
  | ok (resp : DigiKeySearchResponseWire)
  | err (status : Nat) (e : ApiError)

/-- Model of `search_parts` (controllers/digikey.rs:24–74): 503 when unconfigured,
otherwise always HTTP 200, with the search failure folded into the body. -/
def search_parts (configured : Bool) (req : DigiKeySearchRequest)
    (cache : Option TokenCache) (now nowRefresh : Nat)
    (tokenFetch : TokenRequestOutcome)
    (searchFetch : SearchRequestOutcome) : HandlerResult :=
  if !configured then
    -- lines 29–37
    .err 503 ⟨"not_configured",
      "DigiKey API is not configured. Please set DIGIKEY_CLIENT_ID and "
        ++ "DIGIKEY_CLIENT_SECRET environment variables."⟩
  else
    -- line 43: `req.mpn.as_ref().unwrap_or(&req.query)`
    match search_keyword configured cache now nowRefresh tokenFetch
        searchFetch with
    | .ok parts =>
        -- lines 48–58
        .ok ⟨req.mpn.getD req.query, true, none, parts, parts.length⟩
    | .error e =>
        -- lines 60–72
        .ok ⟨req.mpn.getD req.query, false, some e, [], 0⟩

/-! ## Concrete fixtures used by example-based claims -/

/-- A provider product with every field absent except the manufacturer part
number. -/
def mkProduct (mpn : Option String) : DigiKeyProduct :=
  ⟨mpn, none, none, none, none, none, none, none, none, none, none, none⟩

/-- A provider product carrying only a raw product status. -/
def mkStatusProduct (st : Option String) : DigiKeyProduct :=
  { mkProduct none with product_status := some ⟨st, none⟩ }

/-- Returns `true` when the cache check on services/digikey.rs:183–189 does not
serve the cached token: the slot is empty or the entry has at most 60 s of
validity left. -/
def cacheIsStale (cache : Option TokenCache) (now : Nat) : Bool :=
  match cache with
  | none => true
  | some c => decide (c.expires_at ≤ now + 60)

/-- On the stale path, `get_access_token` is exactly the refresh path. -/
theorem get_access_token_stale_eq_refresh (cache : Option TokenCache)
    (now nowRefresh : Nat) (fetch : TokenRequestOutcome)
    (hstale : cacheIsStale cache now = true) :
    get_access_token cache now nowRefresh fetch =
      refreshToken cache nowRefresh fetch := by
  cases cache with
  | none => rfl
  | some c =>
      have hc : ¬ (c.expires_at > now + 60) := by
        have := of_decide_eq_true (by simpa [cacheIsStale] using hstale)
        omega
      simp [get_access_token, hc]

/-- C3: a cache entry with more than 60 s of validity left is served as-is:
the call returns exactly the cached token, issues zero token-endpoint
requests, and leaves the shared slot unchanged. -/
theorem get_access_token_cache_hit (c : TokenCache) (now nowRefresh : Nat)
    (fetch : TokenRequestOutcome) (h : c.expires_at > now + 60) :
    get_access_token (some c) now nowRefresh fetch =
      ⟨.ok c.access_token, some c, 0⟩ := by
  simp [get_access_token, h]

/-- C3 witness: a concrete fresh cache entry is returned unchanged. -/
theorem get_access_token_cache_hit_witness :
    (1000 : Nat) > 0 + 60 ∧
      get_access_token (some ⟨"tok", 1000⟩) 0 5 .decodeError =
        ⟨.ok "tok", some ⟨"tok", 1000⟩, 0⟩ :=
  ⟨by decide,
    get_access_token_cache_hit ⟨"tok", 1000⟩ 0 5 .decodeError (by decide)⟩

/-- C4: with an absent or stale cache and a successful, decodable token
response, `get_access_token` issues exactly one token request, replaces the
slot wholesale with an entry expiring `expires_in` seconds after the
post-response clock read, and returns the fresh token. -/
theorem get_access_token_refresh_success (cache : Option TokenCache)
    (now nowRefresh : Nat) (tr : TokenResponse)
    (hstale : cacheIsStale cache now = true) :
    get_access_token cache now nowRefresh (.success tr) =
      ⟨.ok tr.access_token,
        some ⟨tr.access_token, nowRefresh + tr.expires_in⟩, 1⟩ := by
  rw [get_access_token_stale_eq_refresh cache now nowRefresh _ hstale]
  rfl

/-- C4 witness: a concrete stale entry is discarded wholesale and replaced
by the freshly decoded token. -/
theorem get_access_token_refresh_success_witness :
    cacheIsStale (some ⟨"old", 50⟩) 0 = true ∧
      get_access_token (some ⟨"old", 50⟩) 0 7 (.success ⟨"fresh", 600, "Bearer"⟩) =
        ⟨.ok "fresh", some ⟨"fresh", 7 + 600⟩, 1⟩ :=
  ⟨by decide,
    get_access_token_refresh_success (some ⟨"old", 50⟩) 0 7
      ⟨"fresh", 600, "Bearer"⟩ (by decide)⟩

/-- C10: when the refresh path is taken and the token round trip fails in
any of its three ways, the call returns an error and the shared token cache
retains exactly its previous contents. -/
theorem get_access_token_refresh_failure (cache : Option TokenCache)
    (now nowRefresh : Nat) (fetch : TokenRequestOutcome)
    (hstale : cacheIsStale cache now = true)
    (hfail : fetch.isFailure = true) :
    ∃ e, get_access_token cache now nowRefresh fetch =
      ⟨.error e, cache, 1⟩ := by
  rw [get_access_token_stale_eq_refresh cache now nowRefresh _ hstale]
  cases fetch with
  | sendError => exact ⟨_, rfl⟩
  | httpError status body => exact ⟨_, rfl⟩
  | decodeError => exact ⟨_, rfl⟩
  | success tr => simp [TokenRequestOutcome.isFailure] at hfail

/-- Projection of `convert_product`: the derived obsolescence flag. -/
theorem convert_product_is_obsolete (product : DigiKeyProduct) :
    (convert_product product).is_obsolete =
      ((statusOf product).map hasObsoleteKeyword).getD false := rfl

/-- Projection of `convert_product`: the derived lifecycle status. -/
theorem convert_product_lifecycle (product : DigiKeyProduct) :
    (convert_product product).lifecycle_status =
      (if ((statusOf product).map hasObsoleteKeyword).getD false then
        some ((statusOf product).getD "Obsolete")
      else statusOf product) := rfl

/-- Projection of `convert_product`: the manufacturer part number is passed
through unchanged. -/
theorem convert_product_mpn (product : DigiKeyProduct) :
    (convert_product product).manufacturer_part_number =
      product.manufacturer_part_number := rfl

/-- C9: `is_obsolete` is true iff the raw status is present and its
lower-casing contains an obsolescence keyword; when true, the lifecycle
status is the raw status with `"Obsolete"` as the absent-status default,
otherwise it mirrors the raw status; and the three concrete cases
`"Discontinued"`, `"Active"` and absent behave as specified. -/
theorem convert_product_obsolescence (product : DigiKeyProduct) :
    ((convert_product product).is_obsolete = true ↔
      ∃ s, statusOf product = some s ∧ hasObsoleteKeyword s = true) ∧
    ((convert_product product).lifecycle_status =
      if (convert_product product).is_obsolete then
        some ((statusOf product).getD "Obsolete")
      else statusOf product) ∧
    (convert_product (mkStatusProduct (some "Discontinued"))).is_obsolete
      = true ∧
    (convert_product (mkStatusProduct (some "Discontinued"))).lifecycle_status
      = some "Discontinued" ∧
    (convert_product (mkStatusProduct (some "Active"))).is_obsolete = false ∧
    (convert_product (mkStatusProduct (some "Active"))).lifecycle_status
      = some "Active" ∧
    (convert_product (mkStatusProduct none)).is_obsolete = false ∧
    (convert_product (mkStatusProduct none)).lifecycle_status = none := by
  refine ⟨?_, ?_, by decide, by decide, by decide, by decide, by decide,
    by decide⟩
  · rw [convert_product_is_obsolete]
    cases h : statusOf product with
    | none => simp
    | some s => simp
  · rw [convert_product_lifecycle, convert_product_is_obsolete]

/-- C10 witness: a concrete failed refresh (provider rejected the token
request) leaves the concrete stale cache entry in place. -/
theorem get_access_token_refresh_failure_witness :
    cacheIsStale (some ⟨"old", 50⟩) 0 = true ∧
      TokenRequestOutcome.isFailure (.httpError 401 "denied") = true ∧
      ∃ e, get_access_token (some ⟨"old", 50⟩) 0 7 (.httpError 401 "denied") =
        ⟨.error e, some ⟨"old", 50⟩, 1⟩ :=
  ⟨by decide, by decide,
    get_access_token_refresh_failure (some ⟨"old", 50⟩) 0 7
      (.httpError 401 "denied") (by decide) (by decide)⟩

/-! ## Aggregation: example-based and general properties -/

/-- Fixture for the merge-priority scenario: exact product `P1`, exact
manufacturer products `A1`, `B1`, keyword products `A1` (duplicate), `C1`,
`D1`. -/
def respMergePriority : DigiKeySearchResponse :=
  ⟨some [mkProduct (some "A1"), mkProduct (some "C1"), mkProduct (some "D1")],
    none,
    some [mkProduct (some "A1"), mkProduct (some "B1")],
    none,
    some (mkProduct (some "P1"))⟩

/-- C2: on the scenario with exact product `P`, exact-manufacturer `[A, B]`
and keyword `[A, C, D]` (`A` duplicated by manufacturer part number), the
aggregation returns exactly `[P, A, B, C, D]` in that order, the duplicate
keyword `A` dropped. -/
theorem aggregate_merge_priority :
    aggregate respMergePriority =
      [convert_product (mkProduct (some "P1")),
       convert_product (mkProduct (some "A1")),
       convert_product (mkProduct (some "B1")),
       convert_product (mkProduct (some "C1")),
       convert_product (mkProduct (some "D1"))] := rfl

/-- Each keyword-loop iteration grows the output by at most one record. -/
theorem dedupStep_length_le (parts : List DigiKeyPartInfo)
    (product : DigiKeyProduct) :
    (dedupStep parts product).length ≤ parts.length + 1 := by
  by_cases h : (parts.any fun p =>
      p.manufacturer_part_number == product.manufacturer_part_number) = true
  · simp [dedupStep, h]
  · simp [dedupStep, h]

/-- Folding the keyword loop adds at most one record per examined product. -/
theorem foldl_dedupStep_length_le (ps : List DigiKeyProduct)
    (acc : List DigiKeyPartInfo) :
    (ps.foldl dedupStep acc).length ≤ acc.length + ps.length := by
  induction ps generalizing acc with
  | nil => simp
  | cons p ps ih =>
      calc ((p :: ps).foldl dedupStep acc).length
          = (ps.foldl dedupStep (dedupStep acc p)).length := rfl
        _ ≤ (dedupStep acc p).length + ps.length := ih _
        _ ≤ acc.length + 1 + ps.length := by
            have := dedupStep_length_le acc p
            omega
        _ = acc.length + (p :: ps).length := by
            simp only [List.length_cons]
            omega

/-- Fixture with eleven exact-manufacturer products and nothing else. -/
def respOverCap : DigiKeySearchResponse :=
  ⟨none, none, some (List.replicate 11 (mkProduct none)), none, none⟩

/-- C1 counterexample: a response whose exact-manufacturer bucket holds 11
products makes the aggregation return 11 records — the claimed
unconditional cap of 10 fails, because the exact buckets are never
truncated. -/
theorem aggregate_cap_counterexample :
    (aggregate respOverCap).length = 11 ∧
      ¬ ((aggregate respOverCap).length ≤ 10) := by
  constructor
  · rfl
  · decide

/-- C1 (amended): whenever the exact-product and exact-manufacturer buckets
contribute at most 10 records, the aggregation returns at most 10 records;
the keyword bucket's contribution is bounded by `10 - current_count`. -/
theorem aggregate_length_le_ten (r : DigiKeySearchResponse)
    (hbase : (baseParts r).length ≤ 10) :
    (aggregate r).length ≤ 10 := by
  unfold aggregate
  by_cases h5 : (baseParts r).length < 5
  · rw [if_pos h5]
    cases hp : r.products with
    | none => exact hbase
    | some products =>
        show ((products.take (10 - (baseParts r).length)).foldl dedupStep
          (baseParts r)).length ≤ 10
        have h1 := foldl_dedupStep_length_le
          (products.take (10 - (baseParts r).length)) (baseParts r)
        have h2 : (products.take (10 - (baseParts r).length)).length ≤
            10 - (baseParts r).length := by
          rw [List.length_take]
          exact min_le_left _ _
        omega
  · rw [if_neg h5]
    exact hbase

/-- Fixture with all buckets absent. -/
def respAllAbsent : DigiKeySearchResponse := ⟨none, none, none, none, none⟩

/-- C1 witness: the amended cap theorem applied to the all-absent
response. -/
theorem aggregate_length_le_ten_witness :
    (baseParts respAllAbsent).length ≤ 10 ∧
      (aggregate respAllAbsent).length ≤ 10 :=
  ⟨by decide, aggregate_length_le_ten respAllAbsent (by decide)⟩

/-- Invariant of the keyword-bucket loop: folding `dedupStep` only appends
records, and every appended record's `Option`-valued manufacturer part
number differs from that of every record already present and from that of
every other appended record. -/
theorem foldl_dedupStep_spec (ps : List DigiKeyProduct)
    (acc : List DigiKeyPartInfo) :
    ∃ added : List DigiKeyPartInfo,
      ps.foldl dedupStep acc = acc ++ added ∧
      (∀ a ∈ added, ∀ b ∈ acc,
        a.manufacturer_part_number ≠ b.manufacturer_part_number) ∧
      added.Pairwise (fun a b =>
        a.manufacturer_part_number ≠ b.manufacturer_part_number) := by
  induction ps generalizing acc with
  | nil => exact ⟨[], by simp, by simp, List.Pairwise.nil⟩
  | cons p ps ih =>
      by_cases h : (acc.any fun q =>
          q.manufacturer_part_number == p.manufacturer_part_number) = true
      · have hstep : dedupStep acc p = acc := by simp [dedupStep, h]
        obtain ⟨added, heq, hvs, hpw⟩ := ih acc
        refine ⟨added, ?_, hvs, hpw⟩
        rw [List.foldl_cons, hstep]
        exact heq
      · have hstep : dedupStep acc p = acc ++ [convert_product p] := by
          simp only [dedupStep]
          rw [if_neg h]
        have hnotin : ∀ b ∈ acc,
            b.manufacturer_part_number ≠ p.manufacturer_part_number := by
          intro b hb hEq
          exact h (List.any_eq_true.mpr ⟨b, hb, beq_iff_eq.mpr hEq⟩)
        obtain ⟨added, heq, hvs, hpw⟩ := ih (acc ++ [convert_product p])
        refine ⟨convert_product p :: added, ?_, ?_, ?_⟩
        · rw [List.foldl_cons, hstep, heq, List.append_assoc,
            List.singleton_append]
        · intro a ha b hb
          rcases List.mem_cons.mp ha with hA | hA
        /- the appended head: its MPN is `p`'s, distinct from all of `acc` -/
          · rw [hA, convert_product_mpn]
            exact fun hEq => hnotin b hb hEq.symm
          · exact hvs a hA b (List.mem_append_left _ hb)
        · rw [List.pairwise_cons]
          refine ⟨?_, hpw⟩
          intro a ha
          have := hvs a ha (convert_product p)
            (List.mem_append_right _ (List.mem_singleton_self _))
          exact fun hEq => this hEq.symm

/-- The aggregation is the exact-bucket output plus keyword-phase
additions, and every addition is MPN-distinct from everything before it. -/
theorem aggregate_decomp (r : DigiKeySearchResponse) :
    ∃ added : List DigiKeyPartInfo,
      aggregate r = baseParts r ++ added ∧
      (∀ a ∈ added, ∀ b ∈ baseParts r,
        a.manufacturer_part_number ≠ b.manufacturer_part_number) ∧
      added.Pairwise (fun a b =>
        a.manufacturer_part_number ≠ b.manufacturer_part_number) := by
  unfold aggregate
  by_cases h5 : (baseParts r).length < 5
  · rw [if_pos h5]
    cases hp : r.products with
    | none => exact ⟨[], by simp, by simp, List.Pairwise.nil⟩
    | some products =>
        exact foldl_dedupStep_spec
          (products.take (10 - (baseParts r).length)) (baseParts r)
  · rw [if_neg h5]
    exact ⟨[], by simp, by simp, List.Pairwise.nil⟩

/-- Fixture: the same non-empty MPN `"X"` in the exact-DigiKey slot and in
the exact-manufacturer bucket. -/
def respDupAcrossExact : DigiKeySearchResponse :=
  ⟨none, none, some [mkProduct (some "X")], none, some (mkProduct (some "X"))⟩

/-- C5 counterexample: with the exact-product slot and the
exact-manufacturer bucket both carrying MPN `"X"`, the aggregation output
contains two records with the same non-empty manufacturer part number —
the dedup rule is not applied between the exact buckets. -/
theorem aggregate_dup_across_exact_counterexample :
    (aggregate respDupAcrossExact).map
        DigiKeyPartInfo.manufacturer_part_number
      = [some "X", some "X"] := by decide

/-- C5 (amended): the dedup identity (equality of `Option`-valued
manufacturer part numbers) is enforced only for the keyword-phase
additions: every record the keyword phase appends differs in MPN from every
exact-bucket record and from every other keyword-phase addition; the exact
buckets themselves are not deduplicated. -/
theorem aggregate_keyword_dedup (r : DigiKeySearchResponse) :
    (∀ a ∈ (aggregate r).drop (baseParts r).length, ∀ b ∈ baseParts r,
      a.manufacturer_part_number ≠ b.manufacturer_part_number) ∧
    ((aggregate r).drop (baseParts r).length).Pairwise
      (fun a b =>
        a.manufacturer_part_number ≠ b.manufacturer_part_number) := by
  obtain ⟨added, heq, hvs, hpw⟩ := aggregate_decomp r
  rw [heq, List.drop_left]
  exact ⟨hvs, hpw⟩

/-- C5 witness: the amended theorem instantiated at the merge-priority
fixture, whose keyword phase appends the `C1` and `D1` records. -/
theorem aggregate_keyword_dedup_witness :
    (∀ a ∈ (aggregate respMergePriority).drop
        (baseParts respMergePriority).length,
      ∀ b ∈ baseParts respMergePriority,
        a.manufacturer_part_number ≠ b.manufacturer_part_number) ∧
    ((aggregate respMergePriority).drop
        (baseParts respMergePriority).length).Pairwise
      (fun a b =>
        a.manufacturer_part_number ≠ b.manufacturer_part_number) :=
  aggregate_keyword_dedup respMergePriority

/-- Fixture: one exact-bucket record lacking an MPN and one keyword product
also lacking an MPN. -/
def respNoMpnDup : DigiKeySearchResponse :=
  ⟨some [mkProduct none], none, none, none, some (mkProduct none)⟩

/-- C6 counterexample: the keyword product with an absent manufacturer part
number is dropped, not added, when the already-included exact record also
lacks one — the filter compares `Option` values, so two absent MPNs are
considered duplicates.  Under the claim the output would have had two
records. -/
theorem keyword_absent_mpn_counterexample :
    (mkProduct none).manufacturer_part_number = none ∧
    (convert_product (mkProduct none)).manufacturer_part_number = none ∧
    aggregate respNoMpnDup = [convert_product (mkProduct none)] :=
  ⟨rfl, rfl, rfl⟩

/-- C6 (amended): in the keyword-bucket filter, records lacking a
manufacturer part number ARE considered duplicates of each other: a
keyword product with an absent MPN is dropped whenever some
already-included record also has an absent MPN. -/
theorem dedupStep_absent_mpn_dropped (parts : List DigiKeyPartInfo)
    (product : DigiKeyProduct)
    (hp : product.manufacturer_part_number = none)
    (hparts : ∃ q ∈ parts, q.manufacturer_part_number = none) :
    dedupStep parts product = parts := by
  obtain ⟨q, hq, hqn⟩ := hparts
  have hany : (parts.any fun p =>
      p.manufacturer_part_number == product.manufacturer_part_number)
        = true := by
    refine List.any_eq_true.mpr ⟨q, hq, ?_⟩
    rw [hqn, hp]
    rfl
  simp [dedupStep, hany]

/-- C6 witness: a concrete absent-MPN keyword product is dropped against a
concrete absent-MPN included record. -/
theorem dedupStep_absent_mpn_dropped_witness :
    (mkProduct none).manufacturer_part_number = none ∧
    (∃ q ∈ [convert_product (mkProduct none)],
      q.manufacturer_part_number = none) ∧
    dedupStep [convert_product (mkProduct none)] (mkProduct none)
      = [convert_product (mkProduct none)] :=
  ⟨rfl, ⟨_, List.mem_singleton_self _, rfl⟩,
    dedupStep_absent_mpn_dropped _ _ rfl
      ⟨_, List.mem_singleton_self _, rfl⟩⟩

/-- Fixture: eight keyword products with distinct MPNs and empty exact
buckets. -/
def respEightKeyword : DigiKeySearchResponse :=
  ⟨some [mkProduct (some "K1"), mkProduct (some "K2"), mkProduct (some "K3"),
    mkProduct (some "K4"), mkProduct (some "K5"), mkProduct (some "K6"),
    mkProduct (some "K7"), mkProduct (some "K8")],
    none, none, none, none⟩

/-- C7 counterexample: starting from empty exact buckets, all eight
distinct keyword products are appended, so the sixth, seventh and eighth
are appended while the output already holds five or more records — the
below-5 condition is checked once before the loop, not per addition. -/
theorem keyword_added_past_five_counterexample :
    (baseParts respEightKeyword).length = 0 ∧
      (aggregate respEightKeyword).length = 8 := by
  constructor
  · rfl
  · decide

/-- C7 (amended): the running-total-below-5 condition gates the keyword
phase as a whole, once, before any keyword product is examined: if the
exact buckets already contribute 5 or more records, no keyword product is
ever added; once entered, the phase may append past 5 (up to the
`10 - current_count` bound). -/
theorem aggregate_keyword_skipped_when_base_ge_five
    (r : DigiKeySearchResponse) (h : 5 ≤ (baseParts r).length) :
    aggregate r = baseParts r := by
  unfold aggregate
  rw [if_neg (by omega)]

/-- Fixture: five exact-manufacturer products and three keyword products. -/
def respFiveExact : DigiKeySearchResponse :=
  ⟨some [mkProduct (some "K1"), mkProduct (some "K2"), mkProduct (some "K3")],
    none,
    some [mkProduct (some "M1"), mkProduct (some "M2"), mkProduct (some "M3"),
      mkProduct (some "M4"), mkProduct (some "M5")],
    none, none⟩

/-- C7 witness: with five exact-manufacturer records the keyword bucket
contributes nothing. -/
theorem aggregate_keyword_skipped_witness :
    5 ≤ (baseParts respFiveExact).length ∧
      aggregate respFiveExact = baseParts respFiveExact :=
  ⟨by decide, aggregate_keyword_skipped_when_base_ge_five respFiveExact
    (by decide)⟩

/-! ## HTTP handler: failures surface as HTTP 200 with `success=false` -/

/-- A string append is non-empty when its left part is. -/
theorem append_ne_empty_left (s t : String) (hs : s ≠ "") : s ++ t ≠ "" := by
  intro h
  apply hs
  have hlen := congrArg String.length h
  rw [String.length_append] at hlen
  have hz : s.length = 0 := by
    have : ("" : String).length = 0 := rfl
    omega
  exact String.ext (List.length_eq_zero.mp hz)

/-- Every error message produced by the token refresh path is non-empty. -/
theorem refreshToken_error_ne_empty (cache : Option TokenCache)
    (nowRefresh : Nat) (fetch : TokenRequestOutcome) (e : String)
    (h : (refreshToken cache nowRefresh fetch).result = .error e) :
    e ≠ "" := by
  cases fetch with
  | sendError =>
      simp only [refreshToken] at h
      cases h
      decide
  | httpError status body =>
      simp only [refreshToken] at h
      cases h
      exact append_ne_empty_left _ _ (append_ne_empty_left _ _
        (append_ne_empty_left _ _ (by decide)))
  | decodeError =>
      simp only [refreshToken] at h
      cases h
      decide
  | success tr => simp [refreshToken] at h

/-- Every error message produced by `get_access_token` is non-empty. -/
theorem get_access_token_error_ne_empty (cache : Option TokenCache)
    (now nowRefresh : Nat) (fetch : TokenRequestOutcome) (e : String)
    (h : (get_access_token cache now nowRefresh fetch).result = .error e) :
    e ≠ "" := by
  cases cache with
  | none => exact refreshToken_error_ne_empty none nowRefresh fetch e h
  | some c =>
      by_cases hc : c.expires_at > now + 60
      · simp [get_access_token, hc] at h
      · rw [get_access_token] at h
        rw [if_neg hc] at h
        exact refreshToken_error_ne_empty (some c) nowRefresh fetch e h

/-- In the configured case, `search_keyword` reduces to the token fetch
followed by the search round trip. -/
theorem search_keyword_configured_eq (cache : Option TokenCache)
    (now nowRefresh : Nat) (tokenFetch : TokenRequestOutcome)
    (searchFetch : SearchRequestOutcome) :
    search_keyword true cache now nowRefresh tokenFetch searchFetch =
      match (get_access_token cache now nowRefresh tokenFetch).result with
      | .error e => .error e
      | .ok _token =>
          match searchFetch with
          | .sendError =>
              .error "Failed to send search request to DigiKey"
          | .httpError status body =>
              .error ("DigiKey search failed: " ++ toString status
                ++ " - " ++ body)
          | .decodeError =>
              .error "Failed to parse DigiKey search response"
          | .success resp => .ok (aggregate resp) := rfl

/-- Every error message a configured `search_keyword` call can fail with is
non-empty. -/
theorem search_keyword_error_ne_empty (cache : Option TokenCache)
    (now nowRefresh : Nat) (tokenFetch : TokenRequestOutcome)
    (searchFetch : SearchRequestOutcome) (e : String)
    (h : search_keyword true cache now nowRefresh tokenFetch searchFetch
      = .error e) : e ≠ "" := by
  rw [search_keyword_configured_eq] at h
  cases hres : (get_access_token cache now nowRefresh tokenFetch).result with
  | error e' =>
      rw [hres] at h
      cases h
      exact get_access_token_error_ne_empty cache now nowRefresh
        tokenFetch e hres
  | ok tok =>
      rw [hres] at h
      cases searchFetch with
      | sendError =>
          cases h
          decide
      | httpError status body =>
          cases h
          exact append_ne_empty_left _ _ (append_ne_empty_left _ _
            (append_ne_empty_left _ _ (by decide)))
      | decodeError =>
          cases h
          decide
      | success resp => cases h

/-- C8: whenever the underlying configured `search_keyword` call fails, the
`POST /search` handler replies with HTTP 200 carrying `success = false`,
the non-empty error string, an empty parts list and `total_count = 0` —
never a non-200 status. -/
theorem search_parts_failure_http_200 (req : DigiKeySearchRequest)
    (cache : Option TokenCache) (now nowRefresh : Nat)
    (tokenFetch : TokenRequestOutcome) (searchFetch : SearchRequestOutcome)
    (e : String)
    (h : search_keyword true cache now nowRefresh tokenFetch searchFetch
      = .error e) :
    search_parts true req cache now nowRefresh tokenFetch searchFetch =
      .ok ⟨req.mpn.getD req.query, false, some e, [], 0⟩ ∧ e ≠ "" := by
  constructor
  · have hred : search_parts true req cache now nowRefresh tokenFetch
        searchFetch =
      (match search_keyword true cache now nowRefresh tokenFetch
          searchFetch with
       | .ok parts => HandlerResult.ok
          ⟨req.mpn.getD req.query, true, none, parts, parts.length⟩
       | .error e' => HandlerResult.ok
          ⟨req.mpn.getD req.query, false, some e', [], 0⟩) := rfl
    rw [hred, h]
  · exact search_keyword_error_ne_empty cache now nowRefresh tokenFetch
      searchFetch e h

/-- C8 witness: a concrete auth failure (provider rejected the token
request with status 401) surfaces as HTTP 200, `success = false`, the
concrete non-empty error string, no parts, and zero count. -/
theorem search_parts_failure_http_200_witness :
    search_keyword true none 0 0 (.httpError 401 "denied") .decodeError
      = .error "DigiKey authentication failed: 401 - denied" ∧
    (search_parts true ⟨"q", none⟩ none 0 0 (.httpError 401 "denied")
        .decodeError =
      .ok ⟨"q", false,
        some "DigiKey authentication failed: 401 - denied", [], 0⟩ ∧
      "DigiKey authentication failed: 401 - denied" ≠ "") :=
  ⟨rfl, search_parts_failure_http_200 ⟨"q", none⟩ none 0 0
    (.httpError 401 "denied") .decodeError
    "DigiKey authentication failed: 401 - denied" rfl⟩
